import Mathlib

/-!
Shallow embedding of `ffda-oob-state-collector`
(`src/ffda_oob_state_collector/__main__.py`).

The program decodes small UDP datagrams into per-device battery state and
stores it in four Prometheus gauges (`soc`, `charging`, `temperature`,
`last_contact`), each keyed by the label pair `(ip, host)`.  A periodic
sweep (`cleanup_expired`) removes entries whose last contact is older than
a cutoff.

Modelling decisions:
* A datagram is a `List Nat` of byte values; addresses are `String`s
  (only `address[0]`, the source IP, is used by the code).
* A Prometheus `Gauge` with labels is an association list from the label
  tuple `(ip, host_id)` to the stored value (`Int`; floats never enter the
  code paths claimed about, `time.time()` is modelled as an integer clock
  passed in explicitly).
* Python slices `data[a:b]` are lenient (`(data.drop a).take (b-a)`),
  `int.from_bytes` of an empty slice is 0; the subscript `data[4]` raises
  `IndexError` when the datagram is shorter than 5 bytes, which the decoder
  reports as a distinct error value.
-/

namespace OobCollector

/-- `int.from_bytes(bs, 'big', signed=False)`; the empty slice decodes to 0. -/
def bytesToNatBE (l : List Nat) : Nat :=
  l.foldl (fun a b => a * 256 + b) 0

/-- `int.from_bytes(bs, 'big', signed=True)` (two's complement);
the empty slice decodes to 0. -/
def bytesToIntBE (l : List Nat) : Int :=
  let u := bytesToNatBE l
  if u < 2 ^ (8 * l.length - 1) ∨ l.length = 0 then (u : Int)
  else (u : Int) - 2 ^ (8 * l.length)

/-- The fields a version-1 datagram decodes to (`datagramReceived`, the
local variables `host_id`, `soc_value`, `charging_value`,
`temperature_value`). -/
structure DeviceReport where
  host_id : Nat
  soc_value : Nat
  charging_value : Nat
  temperature_value : Int
  deriving Repr, DecidableEq

/-- Decode failures of `datagramReceived`: `TooShort` is the
`len(data) < 1` early return, `UnsupportedVersion` the
`protocol_version != 1` branch, and `IndexError` the uncaught Python
exception raised by `data[4]` on a version-1 datagram of fewer than
5 bytes. -/
inductive DecodeError where
  | TooShort : DecodeError
  | UnsupportedVersion : Nat → DecodeError
  | IndexError : DecodeError
  deriving Repr, DecidableEq

/-- The pure decoding part of `StateReporterListener.datagramReceived`. -/
def decode (data : List Nat) : Except DecodeError DeviceReport :=
  if data.length < 1 then .error .TooShort
  else
    let protocol_version := bytesToNatBE ((data.drop 0).take 1)
    if protocol_version = 1 then
      match data.get? 4 with
      | none => .error .IndexError
      | some byte4 =>
          .ok { host_id := bytesToNatBE ((data.drop 1).take 2)
                soc_value := bytesToNatBE ((data.drop 3).take 1)
                charging_value := byte4 &&& 1
                temperature_value := bytesToIntBE ((data.drop 5).take 1) }
    else .error (.UnsupportedVersion protocol_version)

/-- The label tuple a data point is stored under: `(address[0], host_id)`. -/
abbrev LabelKey := String × Nat

/-- A labelled Prometheus `Gauge`: its name, help string, label names and
the map `_metrics` from label tuples to values. -/
structure Gauge where
  name : String
  documentation : String
  labelnames : List String
  metrics : List (LabelKey × Int)
  deriving Repr, DecidableEq

/-- `g.labels(ip, host).set(v)`: update the binding for the label tuple if
present, otherwise append a fresh child. -/
def Gauge.labelsSet (g : Gauge) (k : LabelKey) (v : Int) : Gauge :=
  if g.metrics.any (fun p => decide (p.1 = k)) then
    { g with metrics := g.metrics.map (fun p => if p.1 = k then (k, v) else p) }
  else
    { g with metrics := g.metrics ++ [(k, v)] }

/-- `g.remove(ip, host)`: drop the binding for the label tuple. -/
def Gauge.removeKey (g : Gauge) (k : LabelKey) : Gauge :=
  { g with metrics := g.metrics.filter (fun p => decide (p.1 ≠ k)) }

/-- Read the value stored for a label tuple. -/
def Gauge.lookup (g : Gauge) (k : LabelKey) : Option Int :=
  (g.metrics.find? (fun p => decide (p.1 = k))).map (fun p => p.2)

/-- The label tuples a gauge currently has children for. -/
def Gauge.keysOf (g : Gauge) : List LabelKey :=
  g.metrics.map (fun p => p.1)

/-- Number of bindings a label tuple has in the gauge (1 in any state
reachable from a real registry). -/
def Gauge.countKey (g : Gauge) (k : LabelKey) : Nat :=
  (g.metrics.filter (fun p => decide (p.1 = k))).length

/-- `StateCollectorMetrics`: the four gauges. -/
structure StateCollectorMetrics where
  soc : Gauge
  charging : Gauge
  temperature : Gauge
  last_contact : Gauge
  deriving Repr, DecidableEq

/-- `StateCollectorMetrics.__init__`: the four gauges as constructed, with
no children yet. -/
def initMetrics : StateCollectorMetrics :=
  let metric_labels := ["ip", "host"]
  { soc := ⟨"soc", "State of charge", metric_labels, []⟩
    charging := ⟨"charging", "Charging status", metric_labels, []⟩
    temperature := ⟨"temperature", "Temperature in celsius", metric_labels, []⟩
    last_contact := ⟨"last_contact", "Last contact", metric_labels, []⟩ }

/-- The metric families of the registry: name, help string and label
names of each gauge, in construction order. -/
def metricFamilies (m : StateCollectorMetrics) :
    List (String × String × List String) :=
  [ (m.soc.name, m.soc.documentation, m.soc.labelnames),
    (m.charging.name, m.charging.documentation, m.charging.labelnames),
    (m.temperature.name, m.temperature.documentation, m.temperature.labelnames),
    (m.last_contact.name, m.last_contact.documentation, m.last_contact.labelnames) ]

/-- `StateReporterListener.datagramReceived`: decode the datagram and, on
success, set all four gauges for the key `(address[0], host_id)`; on any
failure the metrics are untouched.  `now` is `time.time()` at receipt. -/
def datagramReceived (m : StateCollectorMetrics) (data : List Nat)
    (ip : String) (now : Int) : StateCollectorMetrics :=
  match decode data with
  | .error _ => m
  | .ok r =>
      let k : LabelKey := (ip, r.host_id)
      { soc := m.soc.labelsSet k (r.soc_value : Int)
        charging := m.charging.labelsSet k (r.charging_value : Int)
        temperature := m.temperature.labelsSet k r.temperature_value
        last_contact := m.last_contact.labelsSet k now }

/-- One iteration of the second loop of `cleanup_expired`: remove a label
tuple from all four gauges. -/
def removeEverywhere (m : StateCollectorMetrics) (k : LabelKey) :
    StateCollectorMetrics :=
  { soc := m.soc.removeKey k
    charging := m.charging.removeKey k
    temperature := m.temperature.removeKey k
    last_contact := m.last_contact.removeKey k }

/-- The `to_remove` list of `cleanup_expired`: label tuples of
`last_contact` whose stored value is strictly below the cutoff. -/
def toRemove (m : StateCollectorMetrics) (max_last_contact : Int) :
    List LabelKey :=
  (m.last_contact.metrics.filter (fun p => decide (p.2 < max_last_contact))).map
    (fun p => p.1)

/-- `StateCollectorMetrics.cleanup_expired(max_age)` with the wall clock
passed in: compute the cutoff `now - max_age`, collect the label tuples of
`last_contact` entries strictly below it, then remove each from all four
gauges. -/
def cleanup_expired (m : StateCollectorMetrics) (now : Int) (max_age : Int) :
    StateCollectorMetrics :=
  let max_last_contact := now - max_age
  (toRemove m max_last_contact).foldl removeEverywhere m

/-- The externally triggered operations against the shared metrics table:
an inbound datagram (with its receipt time) or a periodic sweep. -/
inductive Op where
  | datagram : List Nat → String → Int → Op
  | sweep : Int → Int → Op

/-- Apply one operation to the metrics table. -/
def applyOp (m : StateCollectorMetrics) : Op → StateCollectorMetrics
  | .datagram data ip now => datagramReceived m data ip now
  | .sweep now max_age => cleanup_expired m now max_age

/-- Run a sequence of operations from the freshly constructed registry. -/
def runOps (ops : List Op) : StateCollectorMetrics :=
  ops.foldl applyOp initMetrics

/-- The four gauges track the same set of label tuples, in the same
order. -/
def keysAligned (m : StateCollectorMetrics) : Prop :=
  m.soc.keysOf = m.last_contact.keysOf
    ∧ m.charging.keysOf = m.last_contact.keysOf
    ∧ m.temperature.keysOf = m.last_contact.keysOf

/-- Each gauge stores at most one binding per label tuple (always true of
a real Prometheus registry, whose children form a dict). -/
def wellFormed (m : StateCollectorMetrics) : Prop :=
  m.soc.keysOf.Nodup ∧ m.charging.keysOf.Nodup
    ∧ m.temperature.keysOf.Nodup ∧ m.last_contact.keysOf.Nodup

instance (m : StateCollectorMetrics) : Decidable (wellFormed m) := by
  unfold wellFormed; infer_instance

/-! ### Association-list lemmas -/

section ListLemmas

variable {l : List (LabelKey × Int)} {k k' : LabelKey} {v : Int}

theorem find?_replace (k : LabelKey) (v : Int)
    (h : l.any (fun p => decide (p.1 = k)) = true) :
    (l.map (fun p => if p.1 = k then (k, v) else p)).find?
        (fun p => decide (p.1 = k)) = some (k, v) := by
  induction l with
  | nil => simp at h
  | cons p l ih =>
      by_cases hp : p.1 = k
      · simp [List.find?_cons, hp]
      · simp only [List.any_cons, hp, decide_False, decide_eq_true_eq,
          Bool.false_or] at h
        simp [List.find?_cons, hp, ih h]

theorem find?_replace_other (hne : k' ≠ k) :
    (l.map (fun p => if p.1 = k then (k, v) else p)).find?
        (fun p => decide (p.1 = k'))
      = l.find? (fun p => decide (p.1 = k')) := by
  rw [List.find?_map]
  have hcomp : ((fun p : LabelKey × Int => decide (p.1 = k'))
      ∘ (fun p => if p.1 = k then (k, v) else p))
      = fun p : LabelKey × Int => decide (p.1 = k') := by
    funext q
    by_cases hq : q.1 = k
    · simp [Function.comp, hq, Ne.symm hne]
    · simp [Function.comp, hq]
  rw [hcomp]
  cases hfind : l.find? (fun p => decide (p.1 = k')) with
  | none => rfl
  | some q =>
      have hq : q.1 = k' := by
        have := List.find?_some hfind
        simpa using this
      have : ¬ q.1 = k := by rw [hq]; exact hne
      simp [this]

theorem find?_filter_key (f : LabelKey → Bool) (hk : f k = true) :
    (l.filter (fun p => f p.1)).find? (fun p => decide (p.1 = k))
      = l.find? (fun p => decide (p.1 = k)) := by
  induction l with
  | nil => rfl
  | cons p l ih =>
      by_cases hp : p.1 = k
      · simp [List.filter_cons, hp, hk, List.find?_cons]
      · by_cases hf : f p.1 = true
        · simp [List.filter_cons, hf, List.find?_cons, hp, ih]
        · simp [List.filter_cons, hf, List.find?_cons, hp, ih]

theorem find?_filter_key_none (f : LabelKey → Bool) (k : LabelKey)
    (hk : f k = false) :
    (l.filter (fun p => f p.1)).find? (fun p => decide (p.1 = k)) = none := by
  rw [List.find?_eq_none]
  intro x hx
  rw [List.mem_filter] at hx
  simp only [decide_eq_true_eq]
  intro hxk
  rw [hxk, hk] at hx
  exact Bool.false_ne_true hx.2

theorem eq_of_mem_key_eq (h : (l.map (fun p => p.1)).Nodup)
    {p q : LabelKey × Int} (hp : p ∈ l) (hq : q ∈ l) (hk : p.1 = q.1) :
    p = q := by
  induction l with
  | nil => cases hp
  | cons a l ih =>
      rw [List.map_cons, List.nodup_cons] at h
      rcases List.mem_cons.1 hp with rfl | hp' <;>
        rcases List.mem_cons.1 hq with rfl | hq'
      · rfl
      · exact absurd (hk ▸ List.mem_map_of_mem (fun p => p.1) hq') h.1
      · exact absurd (hk ▸ List.mem_map_of_mem (fun p => p.1) hp') h.1
      · exact ih h.2 hp' hq'

theorem length_filter_key_le_one (h : (l.map (fun p => p.1)).Nodup) :
    (l.filter (fun p => decide (p.1 = k))).length ≤ 1 := by
  induction l with
  | nil => simp
  | cons p l ih =>
      rw [List.map_cons, List.nodup_cons] at h
      by_cases hp : p.1 = k
      · have hnil : l.filter (fun p => decide (p.1 = k)) = [] := by
          rw [List.filter_eq_nil_iff]
          intro q hq
          simp only [decide_eq_true_eq]
          intro hqk
          exact h.1 ((hp.trans hqk.symm) ▸ List.mem_map_of_mem (fun p => p.1) hq)
        simp [List.filter_cons, hp, hnil]
      · simp only [List.filter_cons, hp, decide_False, decide_eq_true_eq,
          if_false]
        exact ih h.2

end ListLemmas

/-! ### Gauge lemmas -/

namespace Gauge

theorem labelsSet_metrics (g : Gauge) (k : LabelKey) (v : Int) :
    (g.labelsSet k v).metrics
      = if g.metrics.any (fun p => decide (p.1 = k))
        then g.metrics.map (fun p => if p.1 = k then (k, v) else p)
        else g.metrics ++ [(k, v)] := by
  unfold labelsSet
  split <;> rfl

theorem labelsSet_meta (g : Gauge) (k : LabelKey) (v : Int) :
    (g.labelsSet k v).name = g.name
      ∧ (g.labelsSet k v).documentation = g.documentation
      ∧ (g.labelsSet k v).labelnames = g.labelnames := by
  unfold labelsSet
  split <;> exact ⟨rfl, rfl, rfl⟩

theorem lookup_labelsSet_self (g : Gauge) (k : LabelKey) (v : Int) :
    (g.labelsSet k v).lookup k = some v := by
  unfold lookup
  rw [labelsSet_metrics]
  by_cases h : g.metrics.any (fun p => decide (p.1 = k)) = true
  · rw [if_pos h, find?_replace k v h]
    rfl
  · rw [if_neg h, List.find?_append, List.find?_eq_none.2, Option.none_or]
    · simp [List.find?_cons]
    · intro x hx
      simp only [decide_eq_true_eq]
      intro hxk
      exact h (List.any_eq_true.2 ⟨x, hx, by simp [hxk]⟩)

theorem lookup_labelsSet_other {k k' : LabelKey} (g : Gauge) (hne : k' ≠ k)
    (v : Int) : (g.labelsSet k v).lookup k' = g.lookup k' := by
  unfold lookup
  rw [labelsSet_metrics]
  by_cases h : g.metrics.any (fun p => decide (p.1 = k)) = true
  · rw [if_pos h, find?_replace_other hne]
  · rw [if_neg h, List.find?_append]
    have hsing : List.find? (fun p : LabelKey × Int => decide (p.1 = k'))
        [(k, v)] = none := by
      simp [List.find?_cons, Ne.symm hne]
    rw [hsing, Option.or_none]

theorem foldl_removeKey_metrics (L : List LabelKey) (g : Gauge) :
    (L.foldl Gauge.removeKey g).metrics
      = g.metrics.filter (fun p => decide (p.1 ∉ L)) := by
  induction L generalizing g with
  | nil => simp
  | cons a L ih =>
      rw [List.foldl_cons, ih]
      unfold removeKey
      rw [List.filter_filter]
      apply List.filter_congr
      intro p _
      by_cases h1 : p.1 = a
      · simp [h1]
      · by_cases h2 : p.1 ∈ L <;> simp [h1, h2]

theorem foldl_removeKey_meta (L : List LabelKey) (g : Gauge) :
    (L.foldl Gauge.removeKey g).name = g.name
      ∧ (L.foldl Gauge.removeKey g).documentation = g.documentation
      ∧ (L.foldl Gauge.removeKey g).labelnames = g.labelnames := by
  induction L generalizing g with
  | nil => exact ⟨rfl, rfl, rfl⟩
  | cons a L ih => exact ih (g.removeKey a)

theorem lookup_foldl_removeKey_not_mem {L : List LabelKey} {k : LabelKey}
    (g : Gauge) (h : k ∉ L) :
    (L.foldl Gauge.removeKey g).lookup k = g.lookup k := by
  unfold lookup
  rw [foldl_removeKey_metrics]
  exact congrArg _ (find?_filter_key (fun a => decide (a ∉ L)) (by simpa using h))

theorem lookup_foldl_removeKey_mem {L : List LabelKey} {k : LabelKey}
    (g : Gauge) (h : k ∈ L) :
    (L.foldl Gauge.removeKey g).lookup k = none := by
  unfold lookup
  rw [foldl_removeKey_metrics,
    find?_filter_key_none (fun a => decide (a ∉ L)) k (by simpa using h)]
  rfl

theorem keysOf_labelsSet (g : Gauge) (k : LabelKey) (v : Int) :
    (g.labelsSet k v).keysOf
      = if g.keysOf.any (fun a => decide (a = k))
        then g.keysOf
        else g.keysOf ++ [k] := by
  have hany : ∀ l : List (LabelKey × Int),
      (l.map (fun p => p.1)).any (fun a => decide (a = k))
        = l.any (fun p => decide (p.1 = k)) := by
    intro l
    induction l with
    | nil => rfl
    | cons p l ih => simp only [List.map_cons, List.any_cons, ih]
  simp only [keysOf]
  rw [hany g.metrics, labelsSet_metrics]
  by_cases h : g.metrics.any (fun p => decide (p.1 = k)) = true
  · rw [if_pos h, if_pos h, List.map_map]
    apply List.map_congr_left
    intro p _
    by_cases hp : p.1 = k
    · simp [Function.comp, hp]
    · simp [Function.comp, hp]
  · rw [if_neg h, if_neg h, List.map_append]
    rfl

theorem keysOf_foldl_removeKey (L : List LabelKey) (g : Gauge) :
    (L.foldl Gauge.removeKey g).keysOf
      = g.keysOf.filter (fun a => decide (a ∉ L)) := by
  unfold keysOf
  rw [foldl_removeKey_metrics, List.filter_map]
  rfl

theorem nodup_keysOf_labelsSet (g : Gauge) (k : LabelKey) (v : Int)
    (h : g.keysOf.Nodup) : (g.labelsSet k v).keysOf.Nodup := by
  rw [keysOf_labelsSet]
  by_cases hc : g.keysOf.any (fun a => decide (a = k)) = true
  · rw [if_pos hc]; exact h
  · rw [if_neg hc]
    have hk : k ∉ g.keysOf := by
      intro hmem
      exact hc (List.any_eq_true.2 ⟨k, hmem, by simp⟩)
    simp [List.nodup_append, h, hk]

theorem countKey_labelsSet_self (g : Gauge) (k : LabelKey) (v : Int)
    (h : g.keysOf.Nodup) : (g.labelsSet k v).countKey k = 1 := by
  unfold countKey
  rw [labelsSet_metrics]
  by_cases hc : g.metrics.any (fun p => decide (p.1 = k)) = true
  · rw [if_pos hc, List.filter_map]
    have hcomp : ((fun p : LabelKey × Int => decide (p.1 = k))
        ∘ (fun p => if p.1 = k then (k, v) else p))
        = fun p : LabelKey × Int => decide (p.1 = k) := by
      funext q
      by_cases hq : q.1 = k
      · simp [Function.comp, hq]
      · simp [Function.comp, hq]
    rw [hcomp, List.length_map]
    have hle : (g.metrics.filter (fun p => decide (p.1 = k))).length ≤ 1 :=
      length_filter_key_le_one h
    have hpos : 0 < (g.metrics.filter (fun p => decide (p.1 = k))).length := by
      rcases List.any_eq_true.1 hc with ⟨p, hp, hpk⟩
      exact List.length_pos.2
        (List.ne_nil_of_mem (List.mem_filter.2 ⟨hp, hpk⟩))
    omega
  · rw [if_neg hc, List.filter_append]
    have hnil : g.metrics.filter (fun p => decide (p.1 = k)) = [] := by
      rw [List.filter_eq_nil_iff]
      intro p hp
      simp only [decide_eq_true_eq]
      intro hpk
      exact hc (List.any_eq_true.2 ⟨p, hp, by simp [hpk]⟩)
    simp [hnil]

theorem mem_of_lookup_eq_some {g : Gauge} {k : LabelKey} {v : Int}
    (h : g.lookup k = some v) : (k, v) ∈ g.metrics := by
  unfold lookup at h
  cases hf : g.metrics.find? (fun p => decide (p.1 = k)) with
  | none => rw [hf] at h; cases h
  | some p =>
      rw [hf] at h
      obtain ⟨a, b⟩ := p
      have hk : a = k := by simpa using List.find?_some hf
      have hv : b = v := by simpa using h
      rw [← hk, ← hv]
      exact List.mem_of_find?_eq_some hf

theorem lookup_eq_none_iff {g : Gauge} {k : LabelKey} :
    g.lookup k = none ↔ k ∉ g.keysOf := by
  unfold lookup keysOf
  rw [Option.map_eq_none', List.find?_eq_none]
  constructor
  · intro h hk
    rcases List.mem_map.1 hk with ⟨p, hp, hpk⟩
    exact h p hp (by simp [hpk])
  · intro h p hp hpk
    exact h (List.mem_map.2 ⟨p, hp, by simpa using hpk⟩)

end Gauge

theorem foldl_removeEverywhere_proj (L : List LabelKey)
    (m : StateCollectorMetrics) :
    (L.foldl removeEverywhere m).soc = L.foldl Gauge.removeKey m.soc
      ∧ (L.foldl removeEverywhere m).charging = L.foldl Gauge.removeKey m.charging
      ∧ (L.foldl removeEverywhere m).temperature
          = L.foldl Gauge.removeKey m.temperature
      ∧ (L.foldl removeEverywhere m).last_contact
          = L.foldl Gauge.removeKey m.last_contact := by
  induction L generalizing m with
  | nil => exact ⟨rfl, rfl, rfl, rfl⟩
  | cons a L ih => exact ih (removeEverywhere m a)

theorem mem_toRemove {m : StateCollectorMetrics} {c : Int} {k : LabelKey} :
    k ∈ toRemove m c
      ↔ ∃ v, (k, v) ∈ m.last_contact.metrics ∧ v < c := by
  unfold toRemove
  rw [List.mem_map]
  constructor
  · rintro ⟨p, hp, rfl⟩
    rw [List.mem_filter] at hp
    exact ⟨p.2, hp.1, by simpa using hp.2⟩
  · rintro ⟨v, hv, hvc⟩
    exact ⟨(k, v), List.mem_filter.2 ⟨hv, by simpa using hvc⟩, rfl⟩

theorem toRemove_subset_keysOf {m : StateCollectorMetrics} {c : Int}
    {k : LabelKey} (h : k ∈ toRemove m c) : k ∈ m.last_contact.keysOf := by
  rcases mem_toRemove.1 h with ⟨v, hv, _⟩
  exact List.mem_map.2 ⟨(k, v), hv, rfl⟩

theorem mem_toRemove_iff_of_lookup {m : StateCollectorMetrics} {c : Int}
    {k : LabelKey} {v : Int} (hnd : m.last_contact.keysOf.Nodup)
    (hl : m.last_contact.lookup k = some v) :
    k ∈ toRemove m c ↔ v < c := by
  have hkv : (k, v) ∈ m.last_contact.metrics := Gauge.mem_of_lookup_eq_some hl
  constructor
  · intro hk
    rcases mem_toRemove.1 hk with ⟨v', hv', hvc⟩
    have heq : ((k, v') : LabelKey × Int) = (k, v) :=
      eq_of_mem_key_eq hnd hv' hkv rfl
    rw [show v' = v from congrArg Prod.snd heq] at hvc
    exact hvc
  · intro hvc
    exact mem_toRemove.2 ⟨v, hkv, hvc⟩

theorem cleanup_expired_proj (m : StateCollectorMetrics) (now max_age : Int) :
    (cleanup_expired m now max_age).soc
        = (toRemove m (now - max_age)).foldl Gauge.removeKey m.soc
      ∧ (cleanup_expired m now max_age).charging
          = (toRemove m (now - max_age)).foldl Gauge.removeKey m.charging
      ∧ (cleanup_expired m now max_age).temperature
          = (toRemove m (now - max_age)).foldl Gauge.removeKey m.temperature
      ∧ (cleanup_expired m now max_age).last_contact
          = (toRemove m (now - max_age)).foldl Gauge.removeKey m.last_contact :=
  foldl_removeEverywhere_proj _ m

theorem lookup_cleanup_last_contact (m : StateCollectorMetrics)
    (now max_age : Int) (k : LabelKey)
    (hnd : m.last_contact.keysOf.Nodup) :
    (cleanup_expired m now max_age).last_contact.lookup k
      = match m.last_contact.lookup k with
        | some v => if v < now - max_age then none else some v
        | none => none := by
  obtain ⟨-, -, -, hproj⟩ := cleanup_expired_proj m now max_age
  rw [hproj]
  cases hl : m.last_contact.lookup k with
  | none =>
      have hk : k ∉ toRemove m (now - max_age) := fun hmem =>
        (Gauge.lookup_eq_none_iff.1 hl) (toRemove_subset_keysOf hmem)
      rw [Gauge.lookup_foldl_removeKey_not_mem _ hk, hl]
  | some v =>
      by_cases hv : v < now - max_age
      · have hk : k ∈ toRemove m (now - max_age) :=
          (mem_toRemove_iff_of_lookup hnd hl).2 hv
        rw [Gauge.lookup_foldl_removeKey_mem _ hk]
        simp [hv]
      · have hk : k ∉ toRemove m (now - max_age) := fun hmem =>
          hv ((mem_toRemove_iff_of_lookup hnd hl).1 hmem)
        rw [Gauge.lookup_foldl_removeKey_not_mem _ hk, hl]
        simp [hv]

theorem keysOf_labelsSet_congr {g1 g2 : Gauge} (h : g1.keysOf = g2.keysOf)
    (k : LabelKey) (v1 v2 : Int) :
    (g1.labelsSet k v1).keysOf = (g2.labelsSet k v2).keysOf := by
  rw [Gauge.keysOf_labelsSet, Gauge.keysOf_labelsSet, h]

theorem keysAligned_datagramReceived (m : StateCollectorMetrics)
    (data : List Nat) (ip : String) (now : Int) (h : keysAligned m) :
    keysAligned (datagramReceived m data ip now) := by
  unfold datagramReceived
  cases hd : decode data with
  | error e => exact h
  | ok r =>
      obtain ⟨h1, h2, h3⟩ := h
      exact ⟨keysOf_labelsSet_congr h1 _ _ _, keysOf_labelsSet_congr h2 _ _ _,
        keysOf_labelsSet_congr h3 _ _ _⟩

theorem keysAligned_cleanup (m : StateCollectorMetrics) (now max_age : Int)
    (h : keysAligned m) : keysAligned (cleanup_expired m now max_age) := by
  obtain ⟨hp1, hp2, hp3, hp4⟩ := cleanup_expired_proj m now max_age
  obtain ⟨h1, h2, h3⟩ := h
  refine ⟨?_, ?_, ?_⟩
  · rw [hp1, hp4, Gauge.keysOf_foldl_removeKey, Gauge.keysOf_foldl_removeKey, h1]
  · rw [hp2, hp4, Gauge.keysOf_foldl_removeKey, Gauge.keysOf_foldl_removeKey, h2]
  · rw [hp3, hp4, Gauge.keysOf_foldl_removeKey, Gauge.keysOf_foldl_removeKey, h3]

theorem keysAligned_applyOp (m : StateCollectorMetrics) (op : Op)
    (h : keysAligned m) : keysAligned (applyOp m op) := by
  cases op with
  | datagram data ip now => exact keysAligned_datagramReceived m data ip now h
  | sweep now max_age => exact keysAligned_cleanup m now max_age h

theorem keysAligned_foldl (ops : List Op) (m : StateCollectorMetrics)
    (h : keysAligned m) : keysAligned (ops.foldl applyOp m) := by
  induction ops generalizing m with
  | nil => exact h
  | cons op ops ih => exact ih (applyOp m op) (keysAligned_applyOp m op h)

theorem metricFamilies_applyOp (m : StateCollectorMetrics) (op : Op) :
    metricFamilies (applyOp m op) = metricFamilies m := by
  cases op with
  | datagram data ip now =>
      show metricFamilies (datagramReceived m data ip now) = metricFamilies m
      unfold datagramReceived
      cases hd : decode data with
      | error e => rfl
      | ok r =>
          unfold metricFamilies
          obtain ⟨s1, s2, s3⟩ := m.soc.labelsSet_meta (ip, r.host_id)
            (r.soc_value : Int)
          obtain ⟨c1, c2, c3⟩ := m.charging.labelsSet_meta (ip, r.host_id)
            (r.charging_value : Int)
          obtain ⟨t1, t2, t3⟩ := m.temperature.labelsSet_meta (ip, r.host_id)
            r.temperature_value
          obtain ⟨l1, l2, l3⟩ := m.last_contact.labelsSet_meta (ip, r.host_id)
            now
          simp only [s1, s2, s3, c1, c2, c3, t1, t2, t3, l1, l2, l3]
  | sweep now max_age =>
      show metricFamilies (cleanup_expired m now max_age) = metricFamilies m
      obtain ⟨hp1, hp2, hp3, hp4⟩ := cleanup_expired_proj m now max_age
      unfold metricFamilies
      rw [hp1, hp2, hp3, hp4]
      obtain ⟨s1, s2, s3⟩ := Gauge.foldl_removeKey_meta
        (toRemove m (now - max_age)) m.soc
      obtain ⟨c1, c2, c3⟩ := Gauge.foldl_removeKey_meta
        (toRemove m (now - max_age)) m.charging
      obtain ⟨t1, t2, t3⟩ := Gauge.foldl_removeKey_meta
        (toRemove m (now - max_age)) m.temperature
      obtain ⟨l1, l2, l3⟩ := Gauge.foldl_removeKey_meta
        (toRemove m (now - max_age)) m.last_contact
      simp only [s1, s2, s3, c1, c2, c3, t1, t2, t3, l1, l2, l3]

theorem metricFamilies_runOps (ops : List Op) :
    metricFamilies (runOps ops) = metricFamilies initMetrics := by
  suffices h : ∀ (m : StateCollectorMetrics),
      metricFamilies (ops.foldl applyOp m) = metricFamilies m from h initMetrics
  induction ops with
  | nil => intro m; rfl
  | cons op ops ih =>
      intro m
      rw [List.foldl_cons, ih (applyOp m op), metricFamilies_applyOp]

theorem wellFormed_datagramReceived (m : StateCollectorMetrics)
    (data : List Nat) (ip : String) (now : Int) (h : wellFormed m) :
    wellFormed (datagramReceived m data ip now) := by
  unfold datagramReceived
  cases hd : decode data with
  | error e => exact h
  | ok r =>
      obtain ⟨h1, h2, h3, h4⟩ := h
      exact ⟨Gauge.nodup_keysOf_labelsSet _ _ _ h1,
        Gauge.nodup_keysOf_labelsSet _ _ _ h2,
        Gauge.nodup_keysOf_labelsSet _ _ _ h3,
        Gauge.nodup_keysOf_labelsSet _ _ _ h4⟩

theorem datagramReceived_ok_proj (m : StateCollectorMetrics) (data : List Nat)
    (ip : String) (now : Int) (r : DeviceReport) (h : decode data = .ok r) :
    (datagramReceived m data ip now).soc
        = m.soc.labelsSet (ip, r.host_id) (r.soc_value : Int)
    ∧ (datagramReceived m data ip now).charging
        = m.charging.labelsSet (ip, r.host_id) (r.charging_value : Int)
    ∧ (datagramReceived m data ip now).temperature
        = m.temperature.labelsSet (ip, r.host_id) r.temperature_value
    ∧ (datagramReceived m data ip now).last_contact
        = m.last_contact.labelsSet (ip, r.host_id) now := by
  unfold datagramReceived
  rw [h]
  exact ⟨rfl, rfl, rfl, rfl⟩

/-- A small concrete table for witnesses: two devices, one reported at
time 100 from 10.0.0.1 with host id 1, one at time 500 from 10.0.0.2 with
host id 2. -/
def sampleTable : StateCollectorMetrics :=
  runOps [.datagram [1, 0, 1, 80, 1, 246] "10.0.0.1" 100,
          .datagram [1, 0, 2, 90, 0, 10] "10.0.0.2" 500]

/-! ### Claims -/

/-- C1: for every source address, decoding the 6-byte version-1 payload
`01 00 2A 50 01 F6` succeeds with state-of-charge 80, charging flag 1,
temperature -10 and host identifier 42, and processing the datagram stores
exactly these field values (plus the receipt time) under the label tuple
`(source IP, 42)` in the four gauges. -/
theorem c1_decode_and_store_example :
    decode [0x01, 0x00, 0x2A, 0x50, 0x01, 0xF6]
        = .ok { host_id := 42, soc_value := 80, charging_value := 1,
                temperature_value := -10 }
    ∧ ∀ (m : StateCollectorMetrics) (ip : String) (now : Int),
        (datagramReceived m [0x01, 0x00, 0x2A, 0x50, 0x01, 0xF6] ip
            now).soc.lookup (ip, 42) = some 80
        ∧ (datagramReceived m [0x01, 0x00, 0x2A, 0x50, 0x01, 0xF6] ip
            now).charging.lookup (ip, 42) = some 1
        ∧ (datagramReceived m [0x01, 0x00, 0x2A, 0x50, 0x01, 0xF6] ip
            now).temperature.lookup (ip, 42) = some (-10)
        ∧ (datagramReceived m [0x01, 0x00, 0x2A, 0x50, 0x01, 0xF6] ip
            now).last_contact.lookup (ip, 42) = some now := by
  refine ⟨rfl, fun m ip now => ?_⟩
  have hd : decode [0x01, 0x00, 0x2A, 0x50, 0x01, 0xF6]
      = .ok { host_id := 42, soc_value := 80, charging_value := 1,
              temperature_value := -10 } := rfl
  unfold datagramReceived
  rw [hd]
  exact ⟨Gauge.lookup_labelsSet_self _ _ _, Gauge.lookup_labelsSet_self _ _ _,
    Gauge.lookup_labelsSet_self _ _ _, Gauge.lookup_labelsSet_self _ _ _⟩

/-- C4's failing input, evaluated on the code: a version-1 datagram of
5 bytes is not rejected as too short at all — it is accepted and stored
with temperature 0 — and version-1 datagrams of 1 to 4 bytes die with an
uncaught `IndexError` at `data[4]` rather than the clean `TooShort`
rejection the specification mandates. -/
theorem c4_short_version1_code_behavior :
    decode [0x01, 0x00, 0x2A, 0x50, 0x01]
        = .ok { host_id := 42, soc_value := 80, charging_value := 1,
                temperature_value := 0 }
    ∧ decode [0x01] = .error .IndexError
    ∧ decode [0x01, 0x00, 0x2A, 0x50] = .error .IndexError
    ∧ (datagramReceived initMetrics [0x01, 0x00, 0x2A, 0x50, 0x01]
        "192.0.2.7" 123).temperature.lookup ("192.0.2.7", 42) = some 0
    ∧ datagramReceived initMetrics [0x01, 0x00, 0x2A, 0x50, 0x01]
        "192.0.2.7" 123 ≠ initMetrics :=
  ⟨rfl, rfl, rfl, by decide, by decide⟩

/-- C5: any non-empty datagram whose first byte is not 1 is rejected as an
unsupported version, carrying that version byte, with the metrics left
untouched; the empty datagram is rejected as too short, also leaving the
metrics untouched. -/
theorem c5_unsupported_version_and_empty (b : Nat) (rest : List Nat)
    (m : StateCollectorMetrics) (ip : String) (now : Int) (hb : b ≠ 1) :
    decode (b :: rest) = .error (.UnsupportedVersion b)
    ∧ datagramReceived m (b :: rest) ip now = m
    ∧ decode [] = .error .TooShort
    ∧ datagramReceived m [] ip now = m := by
  have hd : decode (b :: rest) = .error (.UnsupportedVersion b) := by
    unfold decode
    simp [bytesToNatBE, hb]
  have hrecv : datagramReceived m (b :: rest) ip now = m := by
    unfold datagramReceived
    rw [hd]
  exact ⟨hd, hrecv, rfl, rfl⟩

theorem c5_witness :
    (2 : Nat) ≠ 1
    ∧ (decode [2, 9, 9] = .error (.UnsupportedVersion 2)
        ∧ datagramReceived initMetrics [2, 9, 9] "198.51.100.1" 7 = initMetrics
        ∧ decode [] = .error .TooShort
        ∧ datagramReceived initMetrics [] "198.51.100.1" 7 = initMetrics) :=
  ⟨by decide,
    c5_unsupported_version_and_empty 2 [9, 9] initMetrics "198.51.100.1" 7
      (by decide)⟩

/-- C6: running the expiry sweep twice in immediate succession (same clock
reading, same maximum age, no upserts in between) gives exactly the table
the first sweep produced; the second sweep removes nothing. -/
theorem c6_sweep_idempotent (m : StateCollectorMetrics) (now max_age : Int) :
    cleanup_expired (cleanup_expired m now max_age) now max_age
      = cleanup_expired m now max_age := by
  have hnil : toRemove (cleanup_expired m now max_age) (now - max_age) = [] := by
    rw [List.eq_nil_iff_forall_not_mem]
    intro k hk
    rcases mem_toRemove.1 hk with ⟨v, hv, hvc⟩
    obtain ⟨-, -, -, hproj⟩ := cleanup_expired_proj m now max_age
    rw [hproj, Gauge.foldl_removeKey_metrics, List.mem_filter] at hv
    have hnotin : k ∉ toRemove m (now - max_age) := by simpa using hv.2
    exact hnotin (mem_toRemove.2 ⟨v, hv.1, hvc⟩)
  have hunfold : cleanup_expired (cleanup_expired m now max_age) now max_age
      = (toRemove (cleanup_expired m now max_age) (now - max_age)).foldl
          removeEverywhere (cleanup_expired m now max_age) := rfl
  rw [hunfold, hnil]
  rfl

/-- C9 as stated is false: none of the four gauges is named
`state-of-charge`, `charging-status`, `temperature-celsius` or
`last-contact-epoch-seconds`; the registry's metric names are `soc`,
`charging`, `temperature` and `last_contact`. -/
theorem c9_names_counterexample :
    ¬ ((metricFamilies initMetrics).map (fun f => f.1)
        = ["state-of-charge", "charging-status", "temperature-celsius",
            "last-contact-epoch-seconds"]) := by decide

/-- C9 amended: the scrape surface carries exactly four metric families,
named `soc` (State of charge), `charging` (Charging status), `temperature`
(Temperature in celsius) and `last_contact` (Last contact), each with
exactly the label names `ip` and `host`; this holds for the freshly
constructed registry and is preserved by every sequence of datagrams and
sweeps. -/
theorem c9_metric_families (ops : List Op) :
    metricFamilies (runOps ops)
      = [("soc", "State of charge", ["ip", "host"]),
          ("charging", "Charging status", ["ip", "host"]),
          ("temperature", "Temperature in celsius", ["ip", "host"]),
          ("last_contact", "Last contact", ["ip", "host"])] := by
  rw [metricFamilies_runOps]
  rfl

/-- C10: a 5-byte datagram whose first byte is 1 is accepted: the empty
slice `data[5:6]` decodes to temperature 0, and an entry is stored with
host identifier from bytes 1-2, state-of-charge from byte 3 and the
charging bit from byte 4. -/
theorem c10_five_byte_datagram_accepted (b1 b2 b3 b4 : Nat)
    (m : StateCollectorMetrics) (ip : String) (now : Int) :
    decode [1, b1, b2, b3, b4]
        = .ok { host_id := b1 * 256 + b2, soc_value := b3,
                charging_value := b4 &&& 1, temperature_value := 0 }
    ∧ (datagramReceived m [1, b1, b2, b3, b4] ip now).soc.lookup
        (ip, b1 * 256 + b2) = some (b3 : Int)
    ∧ (datagramReceived m [1, b1, b2, b3, b4] ip now).charging.lookup
        (ip, b1 * 256 + b2) = some ((b4 &&& 1 : Nat) : Int)
    ∧ (datagramReceived m [1, b1, b2, b3, b4] ip now).temperature.lookup
        (ip, b1 * 256 + b2) = some 0
    ∧ (datagramReceived m [1, b1, b2, b3, b4] ip now).last_contact.lookup
        (ip, b1 * 256 + b2) = some now := by
  have hd : decode [1, b1, b2, b3, b4]
      = .ok { host_id := b1 * 256 + b2, soc_value := b3,
              charging_value := b4 &&& 1, temperature_value := 0 } := by
    unfold decode
    simp [bytesToNatBE, bytesToIntBE, Nat.mul_comm]
  refine ⟨hd, ?_⟩
  unfold datagramReceived
  rw [hd]
  exact ⟨Gauge.lookup_labelsSet_self _ _ _, Gauge.lookup_labelsSet_self _ _ _,
    Gauge.lookup_labelsSet_self _ _ _, Gauge.lookup_labelsSet_self _ _ _⟩

/-- C2: for an entry with last-contact `v`, `cleanup_expired` removes it
from all four gauges exactly when `v` is strictly below `now - max_age`;
otherwise the entry survives with every field unchanged. -/
theorem c2_sweep_removes_exactly_expired (m : StateCollectorMetrics)
    (now max_age : Int) (k : LabelKey) (v : Int)
    (hnd : m.last_contact.keysOf.Nodup)
    (hv : m.last_contact.lookup k = some v) :
    (v < now - max_age →
        (cleanup_expired m now max_age).soc.lookup k = none
        ∧ (cleanup_expired m now max_age).charging.lookup k = none
        ∧ (cleanup_expired m now max_age).temperature.lookup k = none
        ∧ (cleanup_expired m now max_age).last_contact.lookup k = none)
    ∧ (¬ v < now - max_age →
        (cleanup_expired m now max_age).soc.lookup k = m.soc.lookup k
        ∧ (cleanup_expired m now max_age).charging.lookup k
            = m.charging.lookup k
        ∧ (cleanup_expired m now max_age).temperature.lookup k
            = m.temperature.lookup k
        ∧ (cleanup_expired m now max_age).last_contact.lookup k = some v) := by
  obtain ⟨hp1, hp2, hp3, hp4⟩ := cleanup_expired_proj m now max_age
  constructor
  · intro hvc
    have hk : k ∈ toRemove m (now - max_age) :=
      (mem_toRemove_iff_of_lookup hnd hv).2 hvc
    exact ⟨by rw [hp1]; exact Gauge.lookup_foldl_removeKey_mem _ hk,
      by rw [hp2]; exact Gauge.lookup_foldl_removeKey_mem _ hk,
      by rw [hp3]; exact Gauge.lookup_foldl_removeKey_mem _ hk,
      by rw [hp4]; exact Gauge.lookup_foldl_removeKey_mem _ hk⟩
  · intro hvc
    have hk : k ∉ toRemove m (now - max_age) := fun hmem =>
      hvc ((mem_toRemove_iff_of_lookup hnd hv).1 hmem)
    exact ⟨by rw [hp1]; exact Gauge.lookup_foldl_removeKey_not_mem _ hk,
      by rw [hp2]; exact Gauge.lookup_foldl_removeKey_not_mem _ hk,
      by rw [hp3]; exact Gauge.lookup_foldl_removeKey_not_mem _ hk,
      by rw [hp4, Gauge.lookup_foldl_removeKey_not_mem _ hk]; exact hv⟩

theorem c2_witness :
    (sampleTable.last_contact.keysOf.Nodup
        ∧ sampleTable.last_contact.lookup ("10.0.0.1", 1) = some 100
        ∧ sampleTable.last_contact.lookup ("10.0.0.2", 2) = some 500)
    ∧ (((100 : Int) < 1000 - 600 →
          (cleanup_expired sampleTable 1000 600).soc.lookup ("10.0.0.1", 1)
              = none
          ∧ (cleanup_expired sampleTable 1000 600).charging.lookup
              ("10.0.0.1", 1) = none
          ∧ (cleanup_expired sampleTable 1000 600).temperature.lookup
              ("10.0.0.1", 1) = none
          ∧ (cleanup_expired sampleTable 1000 600).last_contact.lookup
              ("10.0.0.1", 1) = none)
        ∧ (¬ (100 : Int) < 1000 - 600 →
          (cleanup_expired sampleTable 1000 600).soc.lookup ("10.0.0.1", 1)
              = sampleTable.soc.lookup ("10.0.0.1", 1)
          ∧ (cleanup_expired sampleTable 1000 600).charging.lookup
              ("10.0.0.1", 1) = sampleTable.charging.lookup ("10.0.0.1", 1)
          ∧ (cleanup_expired sampleTable 1000 600).temperature.lookup
              ("10.0.0.1", 1) = sampleTable.temperature.lookup ("10.0.0.1", 1)
          ∧ (cleanup_expired sampleTable 1000 600).last_contact.lookup
              ("10.0.0.1", 1) = some 100))
    ∧ (((500 : Int) < 1000 - 600 →
          (cleanup_expired sampleTable 1000 600).soc.lookup ("10.0.0.2", 2)
              = none
          ∧ (cleanup_expired sampleTable 1000 600).charging.lookup
              ("10.0.0.2", 2) = none
          ∧ (cleanup_expired sampleTable 1000 600).temperature.lookup
              ("10.0.0.2", 2) = none
          ∧ (cleanup_expired sampleTable 1000 600).last_contact.lookup
              ("10.0.0.2", 2) = none)
        ∧ (¬ (500 : Int) < 1000 - 600 →
          (cleanup_expired sampleTable 1000 600).soc.lookup ("10.0.0.2", 2)
              = sampleTable.soc.lookup ("10.0.0.2", 2)
          ∧ (cleanup_expired sampleTable 1000 600).charging.lookup
              ("10.0.0.2", 2) = sampleTable.charging.lookup ("10.0.0.2", 2)
          ∧ (cleanup_expired sampleTable 1000 600).temperature.lookup
              ("10.0.0.2", 2) = sampleTable.temperature.lookup ("10.0.0.2", 2)
          ∧ (cleanup_expired sampleTable 1000 600).last_contact.lookup
              ("10.0.0.2", 2) = some 500)) :=
  ⟨⟨by decide, by decide, by decide⟩,
    c2_sweep_removes_exactly_expired sampleTable 1000 600 ("10.0.0.1", 1) 100
      (by decide) (by decide),
    c2_sweep_removes_exactly_expired sampleTable 1000 600 ("10.0.0.2", 2) 500
      (by decide) (by decide)⟩

/-- C3: two accepted reports for the same device key, applied in order,
leave exactly one entry for that key, and its four fields are exactly the
second report's fields — nothing of the first report survives. -/
theorem c3_last_write_wins (m : StateCollectorMetrics) (d1 d2 : List Nat)
    (ip : String) (n1 n2 : Int) (r1 r2 : DeviceReport)
    (h1 : decode d1 = .ok r1) (h2 : decode d2 = .ok r2)
    (hk : r1.host_id = r2.host_id) (hwf : wellFormed m) :
    (datagramReceived (datagramReceived m d1 ip n1) d2 ip n2).soc.lookup
        (ip, r2.host_id) = some (r2.soc_value : Int)
    ∧ (datagramReceived (datagramReceived m d1 ip n1) d2 ip n2).charging.lookup
        (ip, r2.host_id) = some (r2.charging_value : Int)
    ∧ (datagramReceived (datagramReceived m d1 ip n1) d2 ip
        n2).temperature.lookup (ip, r2.host_id) = some r2.temperature_value
    ∧ (datagramReceived (datagramReceived m d1 ip n1) d2 ip
        n2).last_contact.lookup (ip, r2.host_id) = some n2
    ∧ (datagramReceived (datagramReceived m d1 ip n1) d2 ip n2).soc.countKey
        (ip, r2.host_id) = 1
    ∧ (datagramReceived (datagramReceived m d1 ip n1) d2 ip
        n2).charging.countKey (ip, r2.host_id) = 1
    ∧ (datagramReceived (datagramReceived m d1 ip n1) d2 ip
        n2).temperature.countKey (ip, r2.host_id) = 1
    ∧ (datagramReceived (datagramReceived m d1 ip n1) d2 ip
        n2).last_contact.countKey (ip, r2.host_id) = 1 := by
  obtain ⟨w1, w2, w3, w4⟩ := wellFormed_datagramReceived m d1 ip n1 hwf
  obtain ⟨s2, c2, t2, l2⟩ :=
    datagramReceived_ok_proj (datagramReceived m d1 ip n1) d2 ip n2 r2 h2
  exact ⟨by rw [s2]; exact Gauge.lookup_labelsSet_self _ _ _,
    by rw [c2]; exact Gauge.lookup_labelsSet_self _ _ _,
    by rw [t2]; exact Gauge.lookup_labelsSet_self _ _ _,
    by rw [l2]; exact Gauge.lookup_labelsSet_self _ _ _,
    by rw [s2]; exact Gauge.countKey_labelsSet_self _ _ _ w1,
    by rw [c2]; exact Gauge.countKey_labelsSet_self _ _ _ w2,
    by rw [t2]; exact Gauge.countKey_labelsSet_self _ _ _ w3,
    by rw [l2]; exact Gauge.countKey_labelsSet_self _ _ _ w4⟩

theorem c3_witness :
    (decode [1, 0, 5, 10, 1, 1] = .ok (DeviceReport.mk 5 10 1 1)
        ∧ decode [1, 0, 5, 99, 0, 246] = .ok (DeviceReport.mk 5 99 0 (-10))
        ∧ (DeviceReport.mk 5 10 1 1).host_id
            = (DeviceReport.mk 5 99 0 (-10)).host_id
        ∧ wellFormed initMetrics)
    ∧ ((datagramReceived (datagramReceived initMetrics [1, 0, 5, 10, 1, 1]
          "203.0.113.5" 10) [1, 0, 5, 99, 0, 246] "203.0.113.5"
          20).soc.lookup ("203.0.113.5", 5) = some 99
        ∧ (datagramReceived (datagramReceived initMetrics [1, 0, 5, 10, 1, 1]
            "203.0.113.5" 10) [1, 0, 5, 99, 0, 246] "203.0.113.5"
            20).charging.lookup ("203.0.113.5", 5) = some 0
        ∧ (datagramReceived (datagramReceived initMetrics [1, 0, 5, 10, 1, 1]
            "203.0.113.5" 10) [1, 0, 5, 99, 0, 246] "203.0.113.5"
            20).temperature.lookup ("203.0.113.5", 5) = some (-10)
        ∧ (datagramReceived (datagramReceived initMetrics [1, 0, 5, 10, 1, 1]
            "203.0.113.5" 10) [1, 0, 5, 99, 0, 246] "203.0.113.5"
            20).last_contact.lookup ("203.0.113.5", 5) = some 20
        ∧ (datagramReceived (datagramReceived initMetrics [1, 0, 5, 10, 1, 1]
            "203.0.113.5" 10) [1, 0, 5, 99, 0, 246] "203.0.113.5"
            20).soc.countKey ("203.0.113.5", 5) = 1
        ∧ (datagramReceived (datagramReceived initMetrics [1, 0, 5, 10, 1, 1]
            "203.0.113.5" 10) [1, 0, 5, 99, 0, 246] "203.0.113.5"
            20).charging.countKey ("203.0.113.5", 5) = 1
        ∧ (datagramReceived (datagramReceived initMetrics [1, 0, 5, 10, 1, 1]
            "203.0.113.5" 10) [1, 0, 5, 99, 0, 246] "203.0.113.5"
            20).temperature.countKey ("203.0.113.5", 5) = 1
        ∧ (datagramReceived (datagramReceived initMetrics [1, 0, 5, 10, 1, 1]
            "203.0.113.5" 10) [1, 0, 5, 99, 0, 246] "203.0.113.5"
            20).last_contact.countKey ("203.0.113.5", 5) = 1) :=
  ⟨⟨rfl, rfl, rfl, by decide⟩,
    c3_last_write_wins initMetrics [1, 0, 5, 10, 1, 1] [1, 0, 5, 99, 0, 246]
      "203.0.113.5" 10 20 (DeviceReport.mk 5 10 1 1)
      (DeviceReport.mk 5 99 0 (-10)) rfl rfl rfl (by decide)⟩

/-- C7: after every sequence of datagrams and sweeps starting from the
fresh registry, the four gauges expose exactly the same device keys — a
key is present in all four families or in none. -/
theorem c7_metric_key_sets_aligned (ops : List Op) :
    (runOps ops).soc.keysOf = (runOps ops).last_contact.keysOf
    ∧ (runOps ops).charging.keysOf = (runOps ops).last_contact.keysOf
    ∧ (runOps ops).temperature.keysOf = (runOps ops).last_contact.keysOf :=
  keysAligned_foldl ops initMetrics ⟨rfl, rfl, rfl⟩

/-- C8: two accepted reports land in the same table entry exactly when
both the source IP and the decoded host identifier agree; otherwise each
report creates and keeps its own entry with its own field values. -/
theorem c8_device_key_identity (m : StateCollectorMetrics) (d1 d2 : List Nat)
    (ip1 ip2 : String) (n1 n2 : Int) (r1 r2 : DeviceReport)
    (h1 : decode d1 = .ok r1) (h2 : decode d2 = .ok r2) :
    ((ip1 = ip2 ∧ r1.host_id = r2.host_id) →
        (datagramReceived (datagramReceived m d1 ip1 n1) d2 ip2 n2).soc.lookup
            (ip2, r2.host_id) = some (r2.soc_value : Int)
        ∧ (datagramReceived (datagramReceived m d1 ip1 n1) d2 ip2
            n2).charging.lookup (ip2, r2.host_id) = some (r2.charging_value : Int)
        ∧ (datagramReceived (datagramReceived m d1 ip1 n1) d2 ip2
            n2).temperature.lookup (ip2, r2.host_id) = some r2.temperature_value
        ∧ (datagramReceived (datagramReceived m d1 ip1 n1) d2 ip2
            n2).last_contact.lookup (ip2, r2.host_id) = some n2)
    ∧ (¬ (ip1 = ip2 ∧ r1.host_id = r2.host_id) →
        ((datagramReceived (datagramReceived m d1 ip1 n1) d2 ip2 n2).soc.lookup
            (ip1, r1.host_id) = some (r1.soc_value : Int)
        ∧ (datagramReceived (datagramReceived m d1 ip1 n1) d2 ip2
            n2).charging.lookup (ip1, r1.host_id) = some (r1.charging_value : Int)
        ∧ (datagramReceived (datagramReceived m d1 ip1 n1) d2 ip2
            n2).temperature.lookup (ip1, r1.host_id) = some r1.temperature_value
        ∧ (datagramReceived (datagramReceived m d1 ip1 n1) d2 ip2
            n2).last_contact.lookup (ip1, r1.host_id) = some n1)
        ∧ ((datagramReceived (datagramReceived m d1 ip1 n1) d2 ip2 n2).soc.lookup
            (ip2, r2.host_id) = some (r2.soc_value : Int)
        ∧ (datagramReceived (datagramReceived m d1 ip1 n1) d2 ip2
            n2).charging.lookup (ip2, r2.host_id) = some (r2.charging_value : Int)
        ∧ (datagramReceived (datagramReceived m d1 ip1 n1) d2 ip2
            n2).temperature.lookup (ip2, r2.host_id) = some r2.temperature_value
        ∧ (datagramReceived (datagramReceived m d1 ip1 n1) d2 ip2
            n2).last_contact.lookup (ip2, r2.host_id) = some n2)) := by
  obtain ⟨s1, c1, t1, l1⟩ := datagramReceived_ok_proj m d1 ip1 n1 r1 h1
  obtain ⟨s2, c2, t2, l2⟩ :=
    datagramReceived_ok_proj (datagramReceived m d1 ip1 n1) d2 ip2 n2 r2 h2
  have hself :
      (datagramReceived (datagramReceived m d1 ip1 n1) d2 ip2 n2).soc.lookup
          (ip2, r2.host_id) = some (r2.soc_value : Int)
      ∧ (datagramReceived (datagramReceived m d1 ip1 n1) d2 ip2
          n2).charging.lookup (ip2, r2.host_id) = some (r2.charging_value : Int)
      ∧ (datagramReceived (datagramReceived m d1 ip1 n1) d2 ip2
          n2).temperature.lookup (ip2, r2.host_id) = some r2.temperature_value
      ∧ (datagramReceived (datagramReceived m d1 ip1 n1) d2 ip2
          n2).last_contact.lookup (ip2, r2.host_id) = some n2 :=
    ⟨by rw [s2]; exact Gauge.lookup_labelsSet_self _ _ _,
      by rw [c2]; exact Gauge.lookup_labelsSet_self _ _ _,
      by rw [t2]; exact Gauge.lookup_labelsSet_self _ _ _,
      by rw [l2]; exact Gauge.lookup_labelsSet_self _ _ _⟩
  refine ⟨fun _ => hself, fun hne => ⟨?_, hself⟩⟩
  have hkeys : ((ip1, r1.host_id) : LabelKey) ≠ (ip2, r2.host_id) := by
    intro hcontra
    exact hne ⟨congrArg Prod.fst hcontra, congrArg Prod.snd hcontra⟩
  refine ⟨?_, ?_, ?_, ?_⟩
  · rw [s2, Gauge.lookup_labelsSet_other _ hkeys, s1]
    exact Gauge.lookup_labelsSet_self _ _ _
  · rw [c2, Gauge.lookup_labelsSet_other _ hkeys, c1]
    exact Gauge.lookup_labelsSet_self _ _ _
  · rw [t2, Gauge.lookup_labelsSet_other _ hkeys, t1]
    exact Gauge.lookup_labelsSet_self _ _ _
  · rw [l2, Gauge.lookup_labelsSet_other _ hkeys, l1]
    exact Gauge.lookup_labelsSet_self _ _ _

theorem c8_witness :
    (decode [1, 0, 7, 60, 1, 5] = .ok (DeviceReport.mk 7 60 1 5)
        ∧ decode [1, 0, 7, 70, 0, 6] = .ok (DeviceReport.mk 7 70 0 6)
        ∧ ¬ (("10.0.0.1" : String) = "10.0.0.2"
              ∧ (DeviceReport.mk 7 60 1 5).host_id
                  = (DeviceReport.mk 7 70 0 6).host_id))
    ∧ ((datagramReceived (datagramReceived initMetrics [1, 0, 7, 60, 1, 5]
          "10.0.0.1" 11) [1, 0, 7, 70, 0, 6] "10.0.0.2" 22).soc.lookup
          ("10.0.0.1", 7) = some 60
        ∧ (datagramReceived (datagramReceived initMetrics [1, 0, 7, 60, 1, 5]
            "10.0.0.1" 11) [1, 0, 7, 70, 0, 6] "10.0.0.2" 22).charging.lookup
            ("10.0.0.1", 7) = some 1
        ∧ (datagramReceived (datagramReceived initMetrics [1, 0, 7, 60, 1, 5]
            "10.0.0.1" 11) [1, 0, 7, 70, 0, 6] "10.0.0.2" 22).temperature.lookup
            ("10.0.0.1", 7) = some 5
        ∧ (datagramReceived (datagramReceived initMetrics [1, 0, 7, 60, 1, 5]
            "10.0.0.1" 11) [1, 0, 7, 70, 0, 6] "10.0.0.2" 22).last_contact.lookup
            ("10.0.0.1", 7) = some 11)
    ∧ ((datagramReceived (datagramReceived initMetrics [1, 0, 7, 60, 1, 5]
          "10.0.0.1" 11) [1, 0, 7, 70, 0, 6] "10.0.0.2" 22).soc.lookup
          ("10.0.0.2", 7) = some 70
        ∧ (datagramReceived (datagramReceived initMetrics [1, 0, 7, 60, 1, 5]
            "10.0.0.1" 11) [1, 0, 7, 70, 0, 6] "10.0.0.2" 22).charging.lookup
            ("10.0.0.2", 7) = some 0
        ∧ (datagramReceived (datagramReceived initMetrics [1, 0, 7, 60, 1, 5]
            "10.0.0.1" 11) [1, 0, 7, 70, 0, 6] "10.0.0.2" 22).temperature.lookup
            ("10.0.0.2", 7) = some 6
        ∧ (datagramReceived (datagramReceived initMetrics [1, 0, 7, 60, 1, 5]
            "10.0.0.1" 11) [1, 0, 7, 70, 0, 6] "10.0.0.2" 22).last_contact.lookup
            ("10.0.0.2", 7) = some 22) :=
  ⟨⟨rfl, rfl, by decide⟩,
    (c8_device_key_identity initMetrics [1, 0, 7, 60, 1, 5] [1, 0, 7, 70, 0, 6]
      "10.0.0.1" "10.0.0.2" 11 22 (DeviceReport.mk 7 60 1 5)
      (DeviceReport.mk 7 70 0 6) rfl rfl).2 (by decide)⟩

end OobCollector
